import Mathlib

/-!
Shallow embedding of `src/get_latest_transactions.py`, a straight-line
script that initializes a database client, queries the last 10 records of
the `transactions` collection ordered by `timestamp`, re-sorts them
descending client-side, and prints one line per record.
-/

namespace Cashflow

/-- A transaction record payload. Python represents records as dicts whose
fields may be absent, so each field is an `Option`. The `date`,
`description` and `amount` fields are only ever rendered through `str()`
in the f-string of line 41, so they are modelled by their rendered string
value; `timestamp` is the numeric ordering key of lines 30 and 37. -/
structure Transaction where
  date : Option String
  description : Option String
  amount : Option String
  timestamp : Option Int
deriving Repr, DecidableEq

/-- Rendering of a field value inside the f-string of line 41: a present
value renders as itself, an absent one (`dict.get` returned `None`)
renders as the text `None`. -/
def pyStr : Option String → String
  | some s => s
  | none => "None"

/-- Line 41: `print(f"- {transaction.get('date')}: {transaction.get('description')} ({transaction.get('amount')} EUR)")`. -/
def recordLine (t : Transaction) : String :=
  "- " ++ pyStr t.date ++ ": " ++ pyStr t.description ++
    " (" ++ pyStr t.amount ++ " EUR)"

/-- Line 37 sort key: `x.get('timestamp', 0)`. -/
def tsKey (t : Transaction) : Int :=
  t.timestamp.getD 0

/-- Stable descending insertion of `x` into `l`: `x` passes over elements
with a strictly greater key and stops before the first element whose key
is `≤` its own, so an element inserted earlier among equal keys stays
first. -/
def insertDesc (x : Transaction) : List Transaction → List Transaction
  | [] => [x]
  | h :: t => if tsKey x < tsKey h then h :: insertDesc x t else x :: h :: t

/-- Line 37: `transaction_list.sort(key=lambda x: x.get('timestamp', 0), reverse=True)`.
Python guarantees `list.sort` is stable, and `reverse=True` does not
reverse equal elements; a stable insertion sort computes the same
permutation for the total preorder given by `tsKey`. -/
def sortDescByTimestamp : List Transaction → List Transaction
  | [] => []
  | h :: t => insertDesc h (sortDescByTimestamp t)

/-- Line 43 output. -/
def noTransactionsLine : String := "No transactions found."

/-- Line 39 output. -/
def headerLine : String := "Last 10 transactions:"

/-- Lines 32-43, the presenter. The query result of line 30 is either
absent (`None`) or a mapping from service-assigned keys to payloads,
modelled as an association list in mapping order; `if latest_transactions:`
is falsy exactly for `None` and the empty mapping. On the truthy branch
line 34 keeps the values, line 37 sorts them descending by timestamp, and
lines 39-41 print the header and one line per record. -/
def present (latest_transactions : Option (List (String × Transaction))) :
    List String :=
  match latest_transactions with
  | none => [noTransactionsLine]
  | some m =>
    if m.isEmpty then [noTransactionsLine]
    else
      headerLine ::
        (sortDescByTimestamp (m.map Prod.snd)).map recordLine

/-- Number of records in a query result. -/
def resultSize : Option (List (String × Transaction)) → Nat
  | none => 0
  | some m => m.length

/-- Line 19 output. -/
def credGuidance1 : String :=
  "Error initializing Firebase. Please make sure you have set the GOOGLE_APPLICATION_CREDENTIALS environment variable."

/-- Line 20 output. -/
def credGuidance2 : String :=
  "For example: export GOOGLE_APPLICATION_CREDENTIALS=\x27/Users/martinsauer/Workspace/cashflow/src/cashflow-e8354-firebase-adminsdk-fbsvc-af14d8ae4b.json\x27"

/-- Outcome of `firebase_admin.initialize_app` on line 15: it may succeed,
raise a `ValueError` (the only exception type named by the handler on
line 18), or raise an exception of any other type. -/
inductive InitOutcome
  | success
  | valueError
  | otherError
deriving Repr, DecidableEq

/-- How a run ends: `completed c` is a normal interpreter exit with status
`c` (Python's bare `exit()` on line 21 raises `SystemExit(None)`, which
exits with status 0), `unhandledError` is an exception propagating past
the program to the process boundary. -/
inductive RunStatus
  | completed (exitCode : Nat)
  | unhandledError
deriving Repr, DecidableEq

/-- Observable outcome of one run: the lines printed to stdout, how the
process ended, and how many database queries were issued. -/
structure RunResult where
  output : List String
  status : RunStatus
  queriesIssued : Nat
deriving Repr, DecidableEq

/-- The whole script as a function of the init outcome (lines 13-21) and
the query result (line 30). On a `ValueError` the handler prints the two
guidance lines and calls `exit()` before line 25, so no database reference
is taken and no query runs; any other exception from line 15 is not
matched by `except ValueError` and propagates with nothing printed; on
success exactly the one query of line 30 runs and lines 32-43 print. -/
def runProgram (init : InitOutcome)
    (queryResult : Option (List (String × Transaction))) : RunResult :=
  match init with
  | .valueError =>
    { output := [credGuidance1, credGuidance2]
      status := .completed 0
      queriesIssued := 0 }
  | .otherError =>
    { output := []
      status := .unhandledError
      queriesIssued := 0 }
  | .success =>
    { output := present queryResult
      status := .completed 0
      queriesIssued := 1 }

/-- The one query the script builds on line 30:
`db.reference('transactions').order_by_child('timestamp').limit_to_last(10)`. -/
structure QuerySpec where
  path : String
  orderByChild : String
  limitToLast : Nat
deriving Repr, DecidableEq

/-- The query issued on line 30. -/
def issuedQuery : QuerySpec :=
  { path := "transactions", orderByChild := "timestamp", limitToLast := 10 }

/-- Stable ascending insertion by `tsKey` of the payload, used to model
the server-side `order_by_child('timestamp')` ordering. -/
def insertAsc (x : String × Transaction) :
    List (String × Transaction) → List (String × Transaction)
  | [] => [x]
  | h :: t => if tsKey h.2 < tsKey x.2 then h :: insertAsc x t else x :: h :: t

/-- Server-side ascending sort of the stored entries by the `timestamp`
child, as requested by `order_by_child('timestamp')` on line 30. -/
def sortAscByTimestamp : List (String × Transaction) → List (String × Transaction)
  | [] => []
  | h :: t => insertAsc h (sortAscByTimestamp t)

/-- `limit_to_last n`: keep only the last `n` entries of the server-side
ordering, i.e. the `n` with the greatest `timestamp`. -/
def limitToLast (n : Nat) (l : List (String × Transaction)) :
    List (String × Transaction) :=
  l.drop (l.length - n)

/-- The backing service evaluating the query of line 30 against the full
contents of the `transactions` collection: order the entries ascending by
their `timestamp` child, keep the last `limitToLast` of them, and return
`None` when nothing matches (a Firebase `get()` with no data yields
`None`). -/
def serverQuery (store : List (String × Transaction)) :
    Option (List (String × Transaction)) :=
  let res := limitToLast issuedQuery.limitToLast (sortAscByTimestamp store)
  if res.isEmpty then none else some res

/-! ### Supporting lemmas -/

theorem length_insertDesc (x : Transaction) (l : List Transaction) :
    (insertDesc x l).length = l.length + 1 := by
  induction l with
  | nil => rfl
  | cons h t ih =>
    simp only [insertDesc]
    split
    · simp [ih]
    · simp

theorem length_sortDescByTimestamp (l : List Transaction) :
    (sortDescByTimestamp l).length = l.length := by
  induction l with
  | nil => rfl
  | cons h t ih =>
    simp only [sortDescByTimestamp, length_insertDesc, ih, List.length_cons]

theorem mem_insertDesc {y x : Transaction} {l : List Transaction} :
    y ∈ insertDesc x l ↔ y = x ∨ y ∈ l := by
  induction l with
  | nil => simp [insertDesc]
  | cons h t ih =>
    simp only [insertDesc]
    split
    · simp only [List.mem_cons, ih]
      tauto
    · simp only [List.mem_cons]

theorem pairwise_insertDesc {x : Transaction} {l : List Transaction}
    (hl : l.Pairwise (fun a b => tsKey b ≤ tsKey a)) :
    (insertDesc x l).Pairwise (fun a b => tsKey b ≤ tsKey a) := by
  induction l with
  | nil => simp [insertDesc]
  | cons h t ih =>
    rw [List.pairwise_cons] at hl
    obtain ⟨hh, ht⟩ := hl
    simp only [insertDesc]
    split
    · rename_i hlt
      rw [List.pairwise_cons]
      refine ⟨?_, ih ht⟩
      intro y hy
      rcases mem_insertDesc.mp hy with rfl | hyt
      · exact le_of_lt hlt
      · exact hh y hyt
    · rename_i hge
      rw [List.pairwise_cons]
      refine ⟨?_, List.pairwise_cons.mpr ⟨hh, ht⟩⟩
      intro y hy
      rcases List.mem_cons.mp hy with rfl | hyt
      · exact le_of_not_lt hge
      · exact le_trans (hh y hyt) (le_of_not_lt hge)

theorem sorted_sortDescByTimestamp (l : List Transaction) :
    (sortDescByTimestamp l).Pairwise (fun a b => tsKey b ≤ tsKey a) := by
  induction l with
  | nil => simp [sortDescByTimestamp]
  | cons h t ih => exact pairwise_insertDesc ih

theorem filter_insertDesc_pos (p : Transaction → Bool) (x : Transaction)
    (l : List Transaction) (hx : p x = true)
    (hkey : ∀ y, tsKey x < tsKey y → p y = false) :
    (insertDesc x l).filter p = x :: l.filter p := by
  induction l with
  | nil => simp [insertDesc, hx]
  | cons h t ih =>
    simp only [insertDesc]
    split
    · rename_i hlt
      rw [List.filter_cons, List.filter_cons]
      rw [hkey h hlt]
      exact ih
    · rw [List.filter_cons_of_pos hx]

theorem filter_insertDesc_neg (p : Transaction → Bool) (x : Transaction)
    (l : List Transaction) (hx : p x = false) :
    (insertDesc x l).filter p = l.filter p := by
  induction l with
  | nil => simp [insertDesc, hx]
  | cons h t ih =>
    simp only [insertDesc]
    split
    · rw [List.filter_cons, List.filter_cons, ih]
    · rw [List.filter_cons_of_neg (by simp [hx])]

theorem filter_sortDescByTimestamp (l : List Transaction) (k : Int) :
    (sortDescByTimestamp l).filter (fun t => tsKey t == k) =
      l.filter (fun t => tsKey t == k) := by
  induction l with
  | nil => rfl
  | cons h t ih =>
    simp only [sortDescByTimestamp]
    by_cases hp : tsKey h = k
    · rw [filter_insertDesc_pos _ _ _ (by simp [hp]) ?hk, ih,
        List.filter_cons_of_pos (by simp [hp])]
      case hk =>
        intro y hy
        simp only [beq_eq_false_iff_ne, ne_eq]
        intro hyk
        rw [hp, hyk] at hy
        exact lt_irrefl _ hy
    · rw [filter_insertDesc_neg _ _ _ (by simp [hp]), ih,
        List.filter_cons_of_neg (by simp [hp])]

theorem length_limitToLast (n : Nat) (l : List (String × Transaction)) :
    (limitToLast n l).length ≤ n := by
  simp only [limitToLast, List.length_drop]
  omega

theorem length_insertAsc (x : String × Transaction)
    (l : List (String × Transaction)) :
    (insertAsc x l).length = l.length + 1 := by
  induction l with
  | nil => rfl
  | cons h t ih =>
    simp only [insertAsc]
    split
    · simp [ih]
    · simp

theorem length_sortAscByTimestamp (l : List (String × Transaction)) :
    (sortAscByTimestamp l).length = l.length := by
  induction l with
  | nil => rfl
  | cons h t ih =>
    simp only [sortAscByTimestamp, length_insertAsc, ih, List.length_cons]

theorem present_of_ne_nil {m : List (String × Transaction)} (hne : m ≠ []) :
    present (some m) =
      headerLine :: (sortDescByTimestamp (m.map Prod.snd)).map recordLine := by
  match m, hne with
  | h :: t, _ => rfl

theorem length_present_le (r : Option (List (String × Transaction))) :
    (present r).length ≤ 1 + resultSize r := by
  match r with
  | none => simp [present, resultSize]
  | some [] => simp [present, resultSize]
  | some (h :: t) =>
    rw [present_of_ne_nil (List.cons_ne_nil h t)]
    simp only [List.length_cons, List.length_map, length_sortDescByTimestamp,
      resultSize]
    omega

theorem perm_insertDesc (x : Transaction) (l : List Transaction) :
    (insertDesc x l).Perm (x :: l) := by
  induction l with
  | nil => exact List.Perm.refl _
  | cons h t ih =>
    simp only [insertDesc]
    split
    · exact (List.Perm.cons h ih).trans (List.Perm.swap x h t)
    · exact List.Perm.refl _

theorem perm_sortDescByTimestamp (l : List Transaction) :
    (sortDescByTimestamp l).Perm l := by
  induction l with
  | nil => exact List.Perm.refl _
  | cons h t ih =>
    exact (perm_insertDesc h (sortDescByTimestamp t)).trans (List.Perm.cons h ih)

/-! ### Claim theorems -/

/-- Claim C1: for every query result with at most 10 records, an empty or
absent result prints exactly the single line "No transactions found.",
and a non-empty result prints exactly the header line
"Last 10 transactions:" followed by exactly one record line per record,
each of the form produced by the record formatter. -/
theorem claim_C1 (r : Option (List (String × Transaction)))
    (hsize : resultSize r ≤ 10) :
    (resultSize r = 0 → present r = [noTransactionsLine]) ∧
    (resultSize r ≠ 0 →
      ∃ ts : List Transaction, present r = headerLine :: ts.map recordLine ∧
        ts.length = resultSize r) := by
  constructor
  · intro h0
    match r with
    | none => rfl
    | some m =>
      simp only [resultSize] at h0
      rw [List.eq_nil_of_length_eq_zero h0]
      rfl
  · intro hne
    match r with
    | none => simp [resultSize] at hne
    | some m =>
      simp only [resultSize] at hne ⊢
      have hm : m ≠ [] := fun h => hne (by rw [h]; rfl)
      refine ⟨sortDescByTimestamp (m.map Prod.snd),
        present_of_ne_nil hm, ?_⟩
      rw [length_sortDescByTimestamp, List.length_map]

theorem claim_C1_witness :
    resultSize (some [("a", ⟨some "2024-01-01", some "Coffee", some "3.5", some 100⟩),
        ("b", ⟨some "2024-01-02", some "Tea", some "2.0", some 200⟩)]) ≤ 10 ∧
    ((resultSize (some [("a", ⟨some "2024-01-01", some "Coffee", some "3.5", some 100⟩),
        ("b", ⟨some "2024-01-02", some "Tea", some "2.0", some 200⟩)]) = 0 →
      present (some [("a", ⟨some "2024-01-01", some "Coffee", some "3.5", some 100⟩),
        ("b", ⟨some "2024-01-02", some "Tea", some "2.0", some 200⟩)]) = [noTransactionsLine]) ∧
    (resultSize (some [("a", ⟨some "2024-01-01", some "Coffee", some "3.5", some 100⟩),
        ("b", ⟨some "2024-01-02", some "Tea", some "2.0", some 200⟩)]) ≠ 0 →
      ∃ ts : List Transaction, present (some [("a", ⟨some "2024-01-01", some "Coffee", some "3.5", some 100⟩),
          ("b", ⟨some "2024-01-02", some "Tea", some "2.0", some 200⟩)]) =
          headerLine :: ts.map recordLine ∧
        ts.length = resultSize (some [("a", ⟨some "2024-01-01", some "Coffee", some "3.5", some 100⟩),
          ("b", ⟨some "2024-01-02", some "Tea", some "2.0", some 200⟩)]))) :=
  ⟨by decide, claim_C1 _ (by decide)⟩

/-- Claim C2: for every non-empty query result, the printed record lines
come from a list that is sorted descending by timestamp (missing
timestamps treated as 0): for any record a printed before record b,
the timestamp key of a is at least that of b. -/
theorem claim_C2 (m : List (String × Transaction)) (hne : m ≠ []) :
    ∃ ts : List Transaction, present (some m) = headerLine :: ts.map recordLine ∧
      ts.Pairwise (fun a b => tsKey b ≤ tsKey a) :=
  ⟨sortDescByTimestamp (m.map Prod.snd), present_of_ne_nil hne,
    sorted_sortDescByTimestamp _⟩

theorem claim_C2_witness :
    [("a", (⟨some "2024-01-01", some "Coffee", some "3.5", some 100⟩ : Transaction)),
        ("b", ⟨some "2024-01-02", some "Tea", some "2.0", some 300⟩),
        ("c", ⟨some "2024-01-03", some "Bread", some "1.0", some 200⟩)] ≠ [] ∧
    ∃ ts : List Transaction, present (some [("a", (⟨some "2024-01-01", some "Coffee", some "3.5", some 100⟩ : Transaction)),
        ("b", ⟨some "2024-01-02", some "Tea", some "2.0", some 300⟩),
        ("c", ⟨some "2024-01-03", some "Bread", some "1.0", some 200⟩)]) =
        headerLine :: ts.map recordLine ∧
      ts.Pairwise (fun a b => tsKey b ≤ tsKey a) :=
  ⟨by decide, claim_C2 _ (by decide)⟩

/-- Claim C3: whenever initialization fails with a ValueError, the program
prints exactly the two guidance lines (naming the required environment
variable and giving an example value) and issues no query at all. -/
theorem claim_C3 (q : Option (List (String × Transaction))) :
    (runProgram .valueError q).output = [credGuidance1, credGuidance2] ∧
    (runProgram .valueError q).queriesIssued = 0 :=
  ⟨rfl, rfl⟩

/-- Claim C4 counterexample: on a credential initialization failure the
run at query result `none` completes with exit status 0 (Python bare
exit() exits successfully), so it does not terminate with a non-zero exit
status as the claim states. -/
theorem claim_C4_counterexample :
    (runProgram .valueError none).status = RunStatus.completed 0 ∧
    ∀ c, (runProgram .valueError none).status = RunStatus.completed c → c = 0 := by
  refine ⟨rfl, ?_⟩
  intro c h
  simp only [runProgram] at h
  exact (RunStatus.completed.injEq 0 c ▸ h).symm

/-- Claim C4 (amended): on a credential initialization failure the program
prints the remediation message and terminates immediately with exit
status 0 (a successful early exit, not a non-zero one), with no retry and
no query issued. -/
theorem claim_C4 (q : Option (List (String × Transaction))) :
    (runProgram .valueError q).output = [credGuidance1, credGuidance2] ∧
    (runProgram .valueError q).status = RunStatus.completed 0 ∧
    (runProgram .valueError q).queriesIssued = 0 :=
  ⟨rfl, rfl, rfl⟩

/-- Claim C5: on the success path the program issues exactly one query,
against collection path "transactions", ordered by child field
"timestamp", limited to the last 10 entries; consequently the result
holds at most 10 records and the whole output is at most 11 lines
(header plus at most 10 record lines). -/
theorem claim_C5 (store : List (String × Transaction)) :
    (runProgram .success (serverQuery store)).queriesIssued = 1 ∧
    issuedQuery.path = "transactions" ∧
    issuedQuery.orderByChild = "timestamp" ∧
    issuedQuery.limitToLast = 10 ∧
    resultSize (serverQuery store) ≤ 10 ∧
    (runProgram .success (serverQuery store)).output.length ≤ 11 := by
  have hsize : resultSize (serverQuery store) ≤ 10 := by
    simp only [serverQuery]
    split
    · simp [resultSize]
    · simpa [resultSize] using length_limitToLast 10 (sortAscByTimestamp store)
  refine ⟨rfl, rfl, rfl, rfl, hsize, ?_⟩
  have := length_present_le (serverQuery store)
  simp only [runProgram]
  omega

/-- Claim C6: every record in a non-empty query result, including records
with any or all of the date, description and amount fields absent,
produces exactly one output line; the printed list is a permutation of
the result payloads, and the presenter is a total function (it never
raises). -/
theorem claim_C6 (m : List (String × Transaction)) (hne : m ≠ []) :
    ∃ ts : List Transaction, present (some m) = headerLine :: ts.map recordLine ∧
      ts.Perm (m.map Prod.snd) :=
  ⟨sortDescByTimestamp (m.map Prod.snd), present_of_ne_nil hne,
    perm_sortDescByTimestamp _⟩

theorem claim_C6_witness :
    [("k", (⟨none, none, none, none⟩ : Transaction))] ≠ [] ∧
    ∃ ts : List Transaction, present (some [("k", (⟨none, none, none, none⟩ : Transaction))]) =
        headerLine :: ts.map recordLine ∧
      ts.Perm ([("k", (⟨none, none, none, none⟩ : Transaction))].map Prod.snd) :=
  ⟨by decide, claim_C6 _ (by decide)⟩

/-- The record of spec Scenario C: date and description populated, amount
absent. -/
def coffeeRecord : Transaction :=
  { date := some "2024-01-01", description := some "Coffee",
    amount := none, timestamp := some 1 }

/-- Claim C7 counterexample: for a record lacking amount, the printed line
is "- 2024-01-01: Coffee (None EUR)" — the amount slot renders as the
text None (Python str(None)), not as empty, so the output differs from
the line the claim states. -/
theorem claim_C7_counterexample :
    present (some [("k1", coffeeRecord)]) ≠
      [headerLine, "- 2024-01-01: Coffee ( EUR)"] ∧
    present (some [("k1", coffeeRecord)]) =
      [headerLine, "- 2024-01-01: Coffee (None EUR)"] := by
  constructor
  · decide
  · rfl

/-- Claim C7 (amended): for a record with date 2024-01-01 and description
Coffee but no amount field, the program prints the header followed by
exactly "- 2024-01-01: Coffee (None EUR)" — the absent amount renders as
the text None — and the run completes normally without terminating on an
error. -/
theorem claim_C7 :
    present (some [("k1", coffeeRecord)]) =
      [headerLine, "- 2024-01-01: Coffee (None EUR)"] ∧
    (runProgram .success (some [("k1", coffeeRecord)])).status =
      RunStatus.completed 0 :=
  ⟨rfl, rfl⟩

/-- Claim C8: the presentation stage is deterministic — any two runs of
the presenter on the same fixed query result produce identical output. -/
theorem claim_C8 (r : Option (List (String × Transaction)))
    (out₁ out₂ : List String)
    (h1 : out₁ = present r) (h2 : out₂ = present r) : out₁ = out₂ :=
  h1.trans h2.symm

theorem claim_C8_witness :
    [noTransactionsLine] = present none ∧
    ([noTransactionsLine] : List String) = [noTransactionsLine] :=
  ⟨rfl, claim_C8 none [noTransactionsLine] [noTransactionsLine] rfl rfl⟩

/-- Claim C9: the client-side descending sort is stable — for every
timestamp key value k, the records whose key equals k appear in the
sorted list in exactly the same relative order as in the mapping value
sequence (this includes records with a missing timestamp, whose key is
0). -/
theorem claim_C9 (m : List (String × Transaction)) (k : Int) :
    (sortDescByTimestamp (m.map Prod.snd)).filter (fun t => tsKey t == k) =
      (m.map Prod.snd).filter (fun t => tsKey t == k) :=
  filter_sortDescByTimestamp _ k

/-- Claim C10: only a ValueError from initialization is met with the
two-line guidance and early exit; any other exception type from
initialization propagates unhandled to the process boundary with nothing
printed and no query issued. -/
theorem claim_C10 (q : Option (List (String × Transaction))) :
    (runProgram .otherError q).status = RunStatus.unhandledError ∧
    (runProgram .otherError q).output = [] ∧
    (runProgram .otherError q).queriesIssued = 0 ∧
    (runProgram .valueError q).status = RunStatus.completed 0 ∧
    (runProgram .valueError q).output = [credGuidance1, credGuidance2] :=
  ⟨rfl, rfl, rfl, rfl, rfl⟩

end Cashflow
